import Mathlib

/-!
Shallow embedding of the sarufi-ai session-orchestration core
(`src/core/sarufi.ts`, `src/agent/rag.ts`, `src/schemas/decision.schema.ts`,
`src/types/index.d.ts`).

Modelling conventions:
* JavaScript `Map`s and plain objects are modelled as association lists
  `List (String × α)`; lookup (`getK`) returns the first binding, so a
  binding placed in front of the list shadows the ones behind it.  A JS
  object literal `\x7b ...spread, k1: v1, ..., kn: vn \x7d` is modelled by
  `objLit spread [(k1, v1), ..., (kn, vn)]`, which places the literal
  entries (in reverse) in front of the spread, so later literal entries
  win on lookup, exactly as in JavaScript.
* JS numbers are modelled as exact rationals (`ℚ`) and counters as `ℤ`.
  For every comparison proved below the JavaScript double computation and
  the exact rational computation agree (the only float sums that occur are
  sums from \x7b0.3, 0.2\x7d whose double rounding never crosses the 0.5 / 0.8
  tier thresholds, checked case by case).  The special JS values produced
  by `x / 0` and `NaN || 0` are modelled explicitly by `JNum` and
  `jsOrZero`.
* `new Date()` timestamps are passed in as explicit parameters (`now : ℤ`
  for epoch milliseconds, `nowIso : String` for `toISOString()` values),
  and freshly generated session/message ids are passed as parameters as
  well.
* The external oracle round (`generateText` inside `Agent.processPrompt`)
  is modelled by an `OracleOutcome` parameter: either a structured
  `Decision` or a failure message.  Every failure mode of the round
  (provider error, timeout, missing final decision — the internal
  `throw new Error('No decision tool call found')` — or a malformed
  decision payload rejected by the zod schema) surfaces inside
  `Agent.processPrompt`'s own try/catch, which returns
  `generateFallbackResponse` instead of rethrowing.  Consequently the
  `catch` block of `Sarufi.sendMessage` (which would increment
  `errorCount` and build the degraded "I'm sorry, I encountered an
  issue." output) is unreachable for oracle-turn failures: nothing else
  inside its `try` block can throw.  The embedding therefore contains no
  branch for it; `errorCount` is never touched by `sendMessage`.
-/

namespace Sarufi

/-- `goal_progress` enum of `DecisionSchema`. -/
inductive GoalProgress where
  | notStarted
  | inProgress
  | completed
  | blocked
deriving DecidableEq, Repr

/-- `next_action` enum of `DecisionSchema.flow_decision`. -/
inductive NextAction where
  | askDiscoveryQuestion
  | provideInformation
  | handleObjection
  | buildValue
  | qualifyFurther
  | proposeNextStep
  | escalate
  | closeSession
deriving DecidableEq, Repr

/-- `urgency` enum of `DecisionSchema.flow_decision`. -/
inductive Urgency where
  | low
  | medium
  | high
deriving DecidableEq, Repr

/-- `session_stage` enum of `DecisionSchema.meta`. -/
inductive SessionStage where
  | opening
  | discovery
  | qualification
  | presentation
  | objectionHandling
  | closing
  | followUp
deriving DecidableEq, Repr

/-- `user_sentiment` enum of `DecisionSchema.meta`. -/
inductive Sentiment where
  | positive
  | neutral
  | negative
  | unknown
deriving DecidableEq, Repr

/-- The `'high' | 'medium' | 'low'` decision-quality tier. -/
inductive Quality where
  | high
  | medium
  | low
deriving DecidableEq, Repr

/-- `SessionContext.status` union type. -/
inductive Status where
  | active
  | paused
  | completed
  | escalated
deriving DecidableEq, Repr

/-- Message role union type. -/
inductive Role where
  | user
  | assistant
  | system
deriving DecidableEq, Repr

/-- The JS string value of a `SessionStage` enum member. -/
def SessionStage.toStr : SessionStage → String
  | .opening => "opening"
  | .discovery => "discovery"
  | .qualification => "qualification"
  | .presentation => "presentation"
  | .objectionHandling => "objection_handling"
  | .closing => "closing"
  | .followUp => "follow_up"

/-- The JS string value of a `Sentiment` enum member. -/
def Sentiment.toStr : Sentiment → String
  | .positive => "positive"
  | .neutral => "neutral"
  | .negative => "negative"
  | .unknown => "unknown"

/-- The JS string value of a `GoalProgress` enum member. -/
def GoalProgress.toStr : GoalProgress → String
  | .notStarted => "not_started"
  | .inProgress => "in_progress"
  | .completed => "completed"
  | .blocked => "blocked"

/-- The JS string value of a `NextAction` enum member. -/
def NextAction.toStr : NextAction → String
  | .askDiscoveryQuestion => "ask_discovery_question"
  | .provideInformation => "provide_information"
  | .handleObjection => "handle_objection"
  | .buildValue => "build_value"
  | .qualifyFurther => "qualify_further"
  | .proposeNextStep => "propose_next_step"
  | .escalate => "escalate"
  | .closeSession => "close_session"

/-- A JSON-like value carried in a decision's `context_updates` payload. -/
inductive JsValue where
  | str : String → JsValue
  | num : ℚ → JsValue
  | bool : Bool → JsValue
  | strList : List String → JsValue
  | undef : JsValue
deriving DecidableEq, Repr

/-- A JS object of JSON-like values (`Record<string, any>` in the schema);
first binding wins on lookup. -/
def CtxMap := List (String × JsValue)
deriving DecidableEq, Repr

/-- `DecisionSchema.strategy_analysis`. -/
structure StrategyAnalysis where
  current_goal : String
  goal_progress : GoalProgress
  situation_assessment : String
  relevant_guidelines : List String
  opportunities : List String
  risk_factors : List String
deriving DecidableEq, Repr

/-- `DecisionSchema.flow_decision`. -/
structure FlowDecision where
  next_action : NextAction
  reasoning : String
  confidence : ℚ
  urgency : Urgency
  backup_plan : String
deriving DecidableEq, Repr

/-- `DecisionSchema.action_execution`. -/
structure ActionExecution where
  message : String
  message_intent : String
  expected_user_response : String
  context_updates : CtxMap
  next_goal : String
deriving DecidableEq, Repr

/-- `DecisionSchema.meta`. -/
structure DecisionMeta where
  session_stage : SessionStage
  user_sentiment : Sentiment
  should_escalate : Bool
  escalation_reason : Option String
deriving DecidableEq, Repr

/-- The oracle's structured output for one turn (`Decision`). -/
structure Decision where
  strategy_analysis : StrategyAnalysis
  flow_decision : FlowDecision
  action_execution : ActionExecution
  meta : DecisionMeta
deriving DecidableEq, Repr

/-- A value stored in a session's `user_inputs` blackboard: either a
JSON-like value or the full audit copy of a `Decision`
(`last_decision: decision` in `interpretDecision`). -/
inductive StoredValue where
  | js : JsValue → StoredValue
  | dec : Decision → StoredValue
deriving DecidableEq, Repr

/-- The `user_inputs` / `context_updates` object shape of the interpreter;
first binding wins on lookup. -/
def Store := List (String × StoredValue)
deriving DecidableEq, Repr

/-- First-binding-wins lookup in an association-list object. -/
def getK {α : Type} : List (String × α) → String → Option α
  | [], _ => none
  | p :: rest, k => if p.1 = k then some p.2 else getK rest k

/-- JS object literal `\x7b ...base, entries in source order \x7d`: literal
entries shadow the spread and later entries shadow earlier ones. -/
def objLit {α : Type} (base : List (String × α)) (entries : List (String × α)) :
    List (String × α) :=
  entries.reverse ++ base

/-- `Object.assign(target, updates)`: keys of `updates` win. -/
def jsAssign {α : Type} (target updates : List (String × α)) : List (String × α) :=
  updates ++ target

/-- `Map.set` semantics on an association list: replace in place if the key
exists, append otherwise. -/
def mapSet {α : Type} (m : List (String × α)) (k : String) (v : α) :
    List (String × α) :=
  if m.any (fun p => p.1 = k) then m.map (fun p => if p.1 = k then (k, v) else p)
  else m ++ [(k, v)]

/-- In-place mutation of the value stored under key `k` (mutating the object
held by a JS `Map`). -/
def mapUpdate {α : Type} (m : List (String × α)) (k : String) (f : α → α) :
    List (String × α) :=
  m.map (fun p => if p.1 = k then (p.1, f p.2) else p)

/-- `Map.delete` semantics: remove the key, report whether it existed. -/
def mapDelete {α : Type} (m : List (String × α)) (k : String) :
    List (String × α) × Bool :=
  (m.filter (fun p => p.1 ≠ k), m.any (fun p => p.1 = k))

/-- `Math.round` on a finite JS number: round half toward positive infinity. -/
def jsRound (q : ℚ) : ℤ := Int.floor (q + 1/2)

/-- `Array.prototype.join(sep)` on an array of strings. -/
def joinSep (sep : String) : List String → String
  | [] => ""
  | [a] => a
  | a :: b :: rest => a ++ sep ++ joinSep sep (b :: rest)

/-- `Strategy.personality`. -/
structure Personality where
  tone : String
  style : String
  pace : String
deriving DecidableEq, Repr

/-- `Strategy.guidelines`. -/
structure Guidelines where
  must_do : List String
  must_not_do : List String
  prefer_to_do : List String
  avoid_doing : List String
deriving DecidableEq, Repr

/-- `Strategy.knowledge`. -/
structure Knowledge where
  key_info : List String
  common_questions : List String
  escalation_triggers : List String
deriving DecidableEq, Repr

/-- An immutable behavioral configuration (`Strategy` in `types/index.d.ts`).
`personality`, `guidelines` and `knowledge` are required by the TS type, so
the truthiness checks on them in `validateStrategy` can only fail for the
string fields. -/
structure Strategy where
  name : String
  domain : String
  primary_goal : String
  secondary_goals : List String
  llm_provider : String
  model : String
  personality : Personality
  system_prompt : Option String
  guidelines : Guidelines
  knowledge : Knowledge
deriving DecidableEq, Repr

/-- `SessionContext.user_profile`. -/
structure UserProfile where
  detected_intent : Option String
  sentiment : Option String
  expertise_level : Option String
deriving DecidableEq, Repr

/-- A message of a session's append-only transcript. -/
structure Message where
  id : String
  role : Role
  content : String
  timestamp : ℤ
deriving DecidableEq, Repr

/-- `SessionContext.agent_memory`. -/
structure AgentMemory where
  last_action : String
  reasoning_history : List String
  failed_attempts : List String
  successful_patterns : List String
deriving DecidableEq, Repr

/-- The mutable conversation record (`SessionContext`). -/
structure SessionContext where
  session_id : String
  user_id : String
  strategy_name : String
  status : Status
  current_goal : String
  messages_count : ℤ
  user_inputs : Store
  user_profile : UserProfile
  messages : List Message
  agent_memory : AgentMemory
  created_at : ℤ
  updated_at : ℤ
deriving DecidableEq, Repr

/-- `AgentResponse.meta`. -/
structure AgentMeta where
  session_stage : String
  user_sentiment : String
  should_escalate : Bool
  decision_quality : Quality
deriving DecidableEq, Repr

/-- The interpreter's output (`AgentResponse`). -/
structure AgentResponse where
  message : String
  action_taken : String
  reasoning : String
  confidence : ℚ
  context_updates : Store
  suggested_next_user_action : Option String
  meta : Option AgentMeta
deriving DecidableEq, Repr

/-- `Agent.evaluateDecisionQuality`: sequential weighted additions followed
by the tier thresholds, exactly as in the source. -/
def evaluateDecisionQuality (decision : Decision) : Quality :=
  let s0 : ℚ := 0
  let s1 := if decision.strategy_analysis.relevant_guidelines.length > 0 then s0 + 3/10 else s0
  let s2 := if decision.flow_decision.confidence > 7/10 then s1 + 3/10 else s1
  let s3 := if decision.strategy_analysis.opportunities.length > 0 ∨
      decision.strategy_analysis.risk_factors.length > 0 then s2 + 2/10 else s2
  let s4 := if decision.flow_decision.reasoning.length > 20 then s3 + 2/10 else s3
  if s4 ≥ 8/10 then Quality.high
  else if s4 ≥ 5/10 then Quality.medium
  else Quality.low

/-- `Agent.interpretDecision`: builds the reasoning trace, the merged
context-update object and the response record. -/
def interpretDecision (decision : Decision) (prompt : String)
    (context : SessionContext) (nowIso : String) : AgentResponse :=
  let reasoning := joinSep " | " [
    "Analysis: " ++ decision.strategy_analysis.situation_assessment,
    "Decision: " ++ decision.flow_decision.reasoning,
    "Action: " ++ decision.action_execution.message_intent,
    "Confidence: " ++ toString (jsRound (decision.flow_decision.confidence * 100)) ++ "%",
    "Stage: " ++ decision.meta.session_stage.toStr ]
  let contextUpdates := objLit
    (decision.action_execution.context_updates.map (fun p => (p.1, StoredValue.js p.2)))
    [ ("last_decision", StoredValue.dec decision),
      ("last_user_message", StoredValue.js (JsValue.str prompt)),
      ("session_stage", StoredValue.js (JsValue.str decision.meta.session_stage.toStr)),
      ("user_sentiment", StoredValue.js (JsValue.str decision.meta.user_sentiment.toStr)),
      ("guidelines_considered", StoredValue.js (JsValue.strList decision.strategy_analysis.relevant_guidelines)),
      ("opportunities_identified", StoredValue.js (JsValue.strList decision.strategy_analysis.opportunities)),
      ("risks_identified", StoredValue.js (JsValue.strList decision.strategy_analysis.risk_factors)),
      ("previous_goal", StoredValue.js (JsValue.str context.current_goal)),
      ("current_goal", StoredValue.js (JsValue.str decision.action_execution.next_goal)),
      ("goal_progress", StoredValue.js (JsValue.str decision.strategy_analysis.goal_progress.toStr)),
      ("decision_confidence", StoredValue.js (JsValue.num decision.flow_decision.confidence)),
      ("backup_plan", StoredValue.js (JsValue.str decision.flow_decision.backup_plan)),
      ("escalation_needed", StoredValue.js (JsValue.bool decision.meta.should_escalate)),
      ("escalation_reason", StoredValue.js (match decision.meta.escalation_reason with
        | some r => JsValue.str r
        | none => JsValue.undef)),
      ("last_decision_time", StoredValue.js (JsValue.str nowIso)),
      ("updated_at", StoredValue.js (JsValue.str nowIso)) ]
  { message := decision.action_execution.message,
    action_taken := decision.flow_decision.next_action.toStr,
    reasoning := reasoning,
    confidence := decision.flow_decision.confidence,
    context_updates := contextUpdates,
    suggested_next_user_action := some decision.action_execution.expected_user_response,
    meta := some {
      session_stage := decision.meta.session_stage.toStr,
      user_sentiment := decision.meta.user_sentiment.toStr,
      should_escalate := decision.meta.should_escalate,
      decision_quality := evaluateDecisionQuality decision } }

/-- The fixed apologetic message of `Agent.generateFallbackResponse`. -/
def fallbackMessage : String :=
  "I apologize, but I'm having trouble processing your message right now. Could you please rephrase or try again?"

/-- `Agent.generateFallbackResponse`: the degraded response returned when the
oracle round fails; `errMsg` models `error.message`, and the
`error?.message || 'Unknown error'` guard is explicit. -/
def generateFallbackResponse (errMsg : String) (nowIso : String) : AgentResponse :=
  let m := if errMsg = "" then "Unknown error" else errMsg
  { message := fallbackMessage,
    action_taken := "error_fallback",
    reasoning := "System error: " ++ m,
    confidence := 1/10,
    context_updates := objLit [] [
      ("last_error", StoredValue.js (JsValue.str m)),
      ("error_timestamp", StoredValue.js (JsValue.str nowIso)),
      ("fallback_used", StoredValue.js (JsValue.bool true)) ],
    suggested_next_user_action := some "rephrase_or_retry",
    meta := some {
      session_stage := "error_recovery",
      user_sentiment := "unknown",
      should_escalate := true,
      decision_quality := Quality.low } }

/-- The observable outcome of one external oracle round: a structured
decision, or a failure (provider error, timeout, missing final decision,
malformed decision payload) carrying the error message. -/
inductive OracleOutcome where
  | success : Decision → OracleOutcome
  | failure : String → OracleOutcome
deriving DecidableEq, Repr

/-- `Agent.processPrompt`: one oracle round followed by interpretation; every
failure of the round is caught by the method's own try/catch and converted
into the fallback response (never rethrown). -/
def processPrompt (oracle : OracleOutcome) (prompt : String)
    (context : SessionContext) (nowIso : String) : AgentResponse :=
  match oracle with
  | .success decision => interpretDecision decision prompt context nowIso
  | .failure errMsg => generateFallbackResponse errMsg nowIso

/-- The process-wide incremental counters (`Sarufi.sessionStats`). -/
structure SessionStatsRec where
  totalSessions : ℤ
  activeSessions : ℤ
  completedSessions : ℤ
  totalMessages : ℤ
  totalSessionDuration : ℤ
  errorCount : ℤ
deriving DecidableEq, Repr

/-- The whole mutable state of a `Sarufi` instance.  An `Agent` is its bound
strategy plus a provider handle, so the `agents` map stores the bound
strategy. -/
structure SarufiState where
  strategies : List (String × Strategy)
  agents : List (String × Strategy)
  sessions : List (String × SessionContext)
  sessionStats : SessionStatsRec
deriving DecidableEq, Repr

/-- The state of a freshly constructed `Sarufi`. -/
def initialState : SarufiState :=
  { strategies := [],
    agents := [],
    sessions := [],
    sessionStats := { totalSessions := 0, activeSessions := 0, completedSessions := 0,
                      totalMessages := 0, totalSessionDuration := 0, errorCount := 0 } }

/-- The thrown error kinds of the orchestrator API. -/
inductive SarufiError where
  | validationError : String → SarufiError
  | strategyNotFound : String → SarufiError
  | agentNotFound : String → SarufiError
  | sessionNotFound : String → SarufiError
  | sessionNotActive : String → SarufiError
deriving DecidableEq, Repr

/-- `Sarufi.registerStrategy` with `validateStrategy` inlined: the
truthiness checks can only fail on the three required string fields, since
`personality` and `guidelines` are non-nullable objects in the TS type. -/
def registerStrategy (st : SarufiState) (strategy : Strategy) :
    Except SarufiError SarufiState :=
  if strategy.name = "" then .error (.validationError "Strategy must have a name")
  else if strategy.primary_goal = "" then .error (.validationError "Strategy must have a primary_goal")
  else if strategy.domain = "" then .error (.validationError "Strategy must have a domain")
  else .ok { st with
    strategies := mapSet st.strategies strategy.name strategy,
    agents := mapSet st.agents strategy.name strategy }

/-- `Sarufi.getStrategy`. -/
def getStrategy (st : SarufiState) (name : String) : Option Strategy :=
  getK st.strategies name

/-- `Sarufi.unregisterStrategy`: removes the strategy and its agent and
reports whether the strategy existed. -/
def unregisterStrategy (st : SarufiState) (name : String) : SarufiState × Bool :=
  let removed := (mapDelete st.strategies name).2
  ({ st with
     strategies := (mapDelete st.strategies name).1,
     agents := (mapDelete st.agents name).1 }, removed)

/-- `Sarufi.endSession`: `false` only when the session id is absent from the
map (ended sessions stay in the map); otherwise stamps `completed`,
updates the counters and accumulates the duration. -/
def endSession (st : SarufiState) (sessionId : String) (now : ℤ) :
    SarufiState × Bool :=
  match getK st.sessions sessionId with
  | none => (st, false)
  | some ctx =>
    ({ st with
       sessions := mapUpdate st.sessions sessionId
         (fun c => { c with status := Status.completed, updated_at := now }),
       sessionStats := { st.sessionStats with
         activeSessions := st.sessionStats.activeSessions - 1,
         completedSessions := st.sessionStats.completedSessions + 1,
         totalSessionDuration := st.sessionStats.totalSessionDuration + (now - ctx.created_at) } },
     true)

/-- The predicate of `Sarufi.findSessionByUser` (`===` conjunction). -/
def isActiveFor (userId : String) (p : String × SessionContext) : Bool :=
  decide (p.2.user_id = userId ∧ p.2.status = Status.active)

/-- `Sarufi.findSessionByUser`: first session (map insertion order) of the
user with status `active`. -/
def findSessionByUser (st : SarufiState) (userId : String) :
    Option (String × SessionContext) :=
  st.sessions.find? (isActiveFor userId)

/-- The force-end step at the top of `Sarufi.startSession`: if the user has
an active session it is ended first (the returned boolean is discarded). -/
def forceEndExisting (st : SarufiState) (userId : String) (now : ℤ) : SarufiState :=
  match findSessionByUser st userId with
  | some p => (endSession st p.1 now).1
  | none => st

/-- `Sarufi.updateSessionContext`: `Object.assign` of the updates into the
session's `user_inputs` plus an `updated_at` stamp; no-op for an unknown
id. -/
def updateSessionContext (st : SarufiState) (sessionId : String)
    (updates : Store) (now : ℤ) : SarufiState :=
  match getK st.sessions sessionId with
  | none => st
  | some _ => { st with
      sessions := mapUpdate st.sessions sessionId
        (fun c => { c with user_inputs := jsAssign c.user_inputs updates, updated_at := now }) }

/-- The externally visible record returned by `startSession` (`Session`). -/
structure SessionRet where
  session_id : String
  status : String
  initial_message : String
  context : SessionContext
deriving DecidableEq, Repr

/-- The externally visible record returned by `sendMessage` (`Output`). -/
structure Output where
  message : String
  session_id : String
  agent_reasoning : Option String
  suggested_actions : Option (List String)
  session_status : Status
deriving DecidableEq, Repr

/-- The `x ? [x] : undefined` conversion of
`agentResponse.suggested_next_user_action` into `Output.suggested_actions`
(an empty string is falsy). -/
def suggestedActionsOf (s : Option String) : Option (List String) :=
  match s with
  | some a => if a = "" then none else some [a]
  | none => none

/-- `Sarufi.startSession`: resolves strategy and agent, force-ends the
user's existing active session, stores a fresh `active` context, bumps the
session counters, runs the synthetic `[SESSION_STARTED]` turn through the
agent, appends the resulting assistant message, applies the context delta
and returns the `Session` record. -/
def startSession (st : SarufiState) (userId strategyName : String)
    (initialContext : Store) (oracle : OracleOutcome)
    (sessionId msgId : String) (now : ℤ) (nowIso : String) :
    Except SarufiError (SarufiState × SessionRet) :=
  match getK st.strategies strategyName with
  | none => .error (.strategyNotFound strategyName)
  | some _ =>
  match getK st.agents strategyName with
  | none => .error (.agentNotFound strategyName)
  | some _ =>
  let st1 := forceEndExisting st userId now
  let context : SessionContext :=
    { session_id := sessionId,
      user_id := userId,
      strategy_name := strategyName,
      status := Status.active,
      current_goal := "initial_engagement",
      messages_count := 0,
      user_inputs := initialContext,
      user_profile := { detected_intent := none, sentiment := none, expertise_level := none },
      messages := [],
      agent_memory := { last_action := "session_started", reasoning_history := [],
                        failed_attempts := [], successful_patterns := [] },
      created_at := now,
      updated_at := now }
  let st2 := { st1 with
    sessions := mapSet st1.sessions sessionId context,
    sessionStats := { st1.sessionStats with
      totalSessions := st1.sessionStats.totalSessions + 1,
      activeSessions := st1.sessionStats.activeSessions + 1 } }
  let initialResponse := processPrompt oracle "[SESSION_STARTED]" context nowIso
  let st3 := { st2 with
    sessions := mapUpdate st2.sessions sessionId
      (fun c : SessionContext => { c with messages := c.messages ++
        [({ id := msgId, role := Role.assistant, content := initialResponse.message,
            timestamp := now } : Message)] }) }
  let st4 := updateSessionContext st3 sessionId initialResponse.context_updates now
  let finalCtx := (getK st4.sessions sessionId).getD context
  .ok (st4, { session_id := sessionId, status := "started",
              initial_message := initialResponse.message, context := finalCtx })

/-- `Sarufi.sendMessage`.  The three guard checks precede every mutation.
Inside the `try` block nothing can throw (the agent's `processPrompt`
catches its own failures and returns the fallback response), so the
orchestrator's `catch` branch is unreachable and is not modelled; when the
fallback response is returned its `should_escalate`
flag is `true`, so the escalation branch runs. -/
def sendMessage (st : SarufiState) (sessionId message : String)
    (oracle : OracleOutcome) (userMsgId asstMsgId : String)
    (now : ℤ) (nowIso : String) : SarufiState × Except SarufiError Output :=
  match getK st.sessions sessionId with
  | none => (st, .error (.sessionNotFound sessionId))
  | some context =>
  if context.status ≠ Status.active then (st, .error (.sessionNotActive sessionId))
  else match getK st.agents context.strategy_name with
  | none => (st, .error (.agentNotFound context.strategy_name))
  | some _ =>
  let context1 := { context with
    messages := context.messages ++
      [{ id := userMsgId, role := Role.user, content := message, timestamp := now }],
    messages_count := context.messages_count + 1 }
  let st1 := { st with
    sessions := mapUpdate st.sessions sessionId
      (fun c : SessionContext => { c with
        messages := c.messages ++
          [({ id := userMsgId, role := Role.user, content := message,
              timestamp := now } : Message)],
        messages_count := c.messages_count + 1 }),
    sessionStats := { st.sessionStats with
      totalMessages := st.sessionStats.totalMessages + 1 } }
  let agentResponse := processPrompt oracle message context1 nowIso
  let st2 := { st1 with
    sessions := mapUpdate st1.sessions sessionId
      (fun c : SessionContext => { c with
        messages := c.messages ++
          [({ id := asstMsgId, role := Role.assistant, content := agentResponse.message,
              timestamp := now } : Message)],
        messages_count := c.messages_count + 1 }) }
  let st3 := updateSessionContext st2 sessionId agentResponse.context_updates now
  let escalate := match agentResponse.meta with
    | some m => m.should_escalate
    | none => false
  let st4 := if escalate then
      { st3 with
        sessions := mapUpdate st3.sessions sessionId
          (fun c => { c with status := Status.escalated }),
        sessionStats := { st3.sessionStats with
          activeSessions := st3.sessionStats.activeSessions - 1 } }
    else st3
  let finalStatus := if escalate then Status.escalated else context.status
  (st4, .ok { message := agentResponse.message,
              session_id := sessionId,
              agent_reasoning := some agentResponse.reasoning,
              suggested_actions := suggestedActionsOf agentResponse.suggested_next_user_action,
              session_status := finalStatus })

/-- A JS number that may be `NaN` or an infinity (the unguarded divisions of
the stats code). -/
inductive JNum where
  | nan : JNum
  | inf : JNum
  | ninf : JNum
  | val : ℚ → JNum
deriving DecidableEq, Repr

/-- JS division of finite numbers: `0/0` is `NaN`, `x/0` is a signed
infinity for `x ≠ 0`. -/
def jsDiv (a b : ℚ) : JNum :=
  if b = 0 then (if a = 0 then .nan else if a > 0 then .inf else .ninf)
  else .val (a / b)

/-- `x || 0` on a JS number: `NaN`, `0` and `-0` are falsy. -/
def jsOrZero (x : JNum) : JNum :=
  match x with
  | .nan => .val 0
  | .val q => if q = 0 then .val 0 else .val q
  | other => other

/-- The per-session additions of `Sarufi.calculatePerformanceScore`, in
source order. -/
def sessionScoreStep (s : ℚ) (c : SessionContext) : ℚ :=
  let s1 := if c.status = Status.completed then s + 1 else s
  let s2 := if getK c.user_inputs "decision_quality" = some (StoredValue.js (JsValue.str "high"))
    then s1 + 1/2 else s1
  let s3 := if getK c.user_inputs "user_sentiment" = some (StoredValue.js (JsValue.str "positive"))
    then s2 + 3/10 else s2
  if c.status = Status.escalated then s3 - 1/2 else s3

/-- `Sarufi.calculatePerformanceScore`. -/
def calculatePerformanceScore (sessions : List SessionContext) : ℚ :=
  if sessions.length = 0 then 0
  else
    let score := sessions.foldl sessionScoreStep 0
    max 0 (min 1 (score / (sessions.length : ℚ)))

/-- The record returned by `Sarufi.getStrategyPerformance`. -/
structure StrategyPerformance where
  strategy_name : String
  total_sessions : ℕ
  completion_rate : ℚ
  escalation_rate : ℚ
  average_messages : JNum
  performance_score : ℚ
deriving DecidableEq, Repr

/-- `Sarufi.getStrategyPerformance`: the rate computations guard zero, the
average-messages division does not and relies on `averageMessages || 0` to
turn the `NaN` of the empty case into `0`. -/
def getStrategyPerformance (st : SarufiState) (strategyName : String) :
    StrategyPerformance :=
  let sessions := (st.sessions.map Prod.snd).filter (fun c => c.strategy_name == strategyName)
  let totalSessions := sessions.length
  let completedSessions := (sessions.filter (fun c => c.status == Status.completed)).length
  let escalatedSessions := (sessions.filter (fun c => c.status == Status.escalated)).length
  let sumMessages : ℤ := sessions.foldl (fun sum c => sum + c.messages_count) 0
  let averageMessages := jsDiv (sumMessages : ℚ) (totalSessions : ℚ)
  { strategy_name := strategyName,
    total_sessions := totalSessions,
    completion_rate := if totalSessions > 0 then (completedSessions : ℚ) / (totalSessions : ℚ) else 0,
    escalation_rate := if totalSessions > 0 then (escalatedSessions : ℚ) / (totalSessions : ℚ) else 0,
    average_messages := jsOrZero averageMessages,
    performance_score := calculatePerformanceScore sessions }

/-- Spec-side formulation of the quality score (§4.4 of the spec): a plain
sum of the four weighted terms, to be compared with the source-side
`evaluateDecisionQuality`. -/
def specQualityScore (decision : Decision) : ℚ :=
  (if decision.strategy_analysis.relevant_guidelines.length > 0 then 3/10 else 0)
  + (if decision.flow_decision.confidence > 7/10 then 3/10 else 0)
  + (if decision.strategy_analysis.opportunities.length > 0 ∨
        decision.strategy_analysis.risk_factors.length > 0 then 2/10 else 0)
  + (if decision.flow_decision.reasoning.length > 20 then 2/10 else 0)

/-- Spec-side tier mapping: `high` iff score ≥ 0.8, `medium` iff
0.5 ≤ score < 0.8, else `low`. -/
def specTier (s : ℚ) : Quality :=
  if s ≥ 8/10 then Quality.high
  else if s ≥ 5/10 then Quality.medium
  else Quality.low

/-- The fixed derived keys that `interpretDecision` writes after the
decision's own `context_updates` spread, in source order. -/
def fixedDerivedKeys : List String :=
  ["last_decision", "last_user_message", "session_stage", "user_sentiment",
   "guidelines_considered", "opportunities_identified", "risks_identified",
   "previous_goal", "current_goal", "goal_progress", "decision_confidence",
   "backup_plan", "escalation_needed", "escalation_reason",
   "last_decision_time", "updated_at"]

/-- Number of stored sessions of a user that are `active`. -/
def activeCountOf (st : SarufiState) (uid : String) : ℕ :=
  st.sessions.countP (isActiveFor uid)

/-- The per-user session-uniqueness invariant: at most one stored session of
any user is `active`. -/
def AtMostOneActive (st : SarufiState) : Prop :=
  ∀ uid, activeCountOf st uid ≤ 1

/-- The state after a `startSession` call: the updated state on success, the
unchanged state on a thrown error. -/
def afterStart (st : SarufiState) (userId strategyName : String)
    (initialContext : Store) (oracle : OracleOutcome)
    (sessionId msgId : String) (now : ℤ) (nowIso : String) : SarufiState :=
  match startSession st userId strategyName initialContext oracle sessionId msgId now nowIso with
  | .ok (st', _) => st'
  | .error _ => st

/-- Example strategy used for concrete evaluations. -/
def exStrategy : Strategy :=
  { name := "sales_bot",
    domain := "sales",
    primary_goal := "close deals",
    secondary_goals := ["upsell"],
    llm_provider := "anthropic",
    model := "claude-3-5-sonnet-20241022",
    personality := { tone := "professional", style := "consultative", pace := "medium" },
    system_prompt := none,
    guidelines := { must_do := ["greet the customer"], must_not_do := ["invent prices"],
                    prefer_to_do := ["ask questions"], avoid_doing := ["jargon"] },
    knowledge := { key_info := ["30-day returns"], common_questions := ["pricing"],
                   escalation_triggers := ["legal threat"] } }

/-- Example active session context. -/
def exCtx : SessionContext :=
  { session_id := "sess1",
    user_id := "u1",
    strategy_name := "sales_bot",
    status := Status.active,
    current_goal := "initial_engagement",
    messages_count := 0,
    user_inputs := [],
    user_profile := { detected_intent := none, sentiment := none, expertise_level := none },
    messages := [],
    agent_memory := { last_action := "session_started", reasoning_history := [],
                      failed_attempts := [], successful_patterns := [] },
    created_at := 0,
    updated_at := 0 }

/-- Example state: one registered strategy, one active session. -/
def exStateSess : SarufiState :=
  { strategies := [("sales_bot", exStrategy)],
    agents := [("sales_bot", exStrategy)],
    sessions := [("sess1", exCtx)],
    sessionStats := { totalSessions := 1, activeSessions := 1, completedSessions := 0,
                      totalMessages := 0, totalSessionDuration := 0, errorCount := 0 } }

/-- Example state: one registered strategy, no sessions. -/
def exStateEmpty : SarufiState :=
  { strategies := [("sales_bot", exStrategy)],
    agents := [("sales_bot", exStrategy)],
    sessions := [],
    sessionStats := { totalSessions := 0, activeSessions := 0, completedSessions := 0,
                      totalMessages := 0, totalSessionDuration := 0, errorCount := 0 } }

/-- Example decision whose own `context_updates` tries to shadow the fixed
derived key `current_goal` and also carries an untouched custom key. -/
def exDecision : Decision :=
  { strategy_analysis :=
      { current_goal := "initial_engagement",
        goal_progress := GoalProgress.inProgress,
        situation_assessment := "customer asked about pricing",
        relevant_guidelines := ["greet the customer"],
        opportunities := ["upsell"],
        risk_factors := [] },
    flow_decision :=
      { next_action := NextAction.provideInformation,
        reasoning := "customer wants concrete pricing data",
        confidence := 9/10,
        urgency := Urgency.medium,
        backup_plan := "offer a demo" },
    action_execution :=
      { message := "The Pro plan is $299/month.",
        message_intent := "inform about pricing",
        expected_user_response := "follow_up_question",
        context_updates := [("current_goal", JsValue.str "hijacked"),
                            ("shoe_size", JsValue.str "42")],
        next_goal := "close_deal" },
    meta :=
      { session_stage := SessionStage.discovery,
        user_sentiment := Sentiment.positive,
        should_escalate := false,
        escalation_reason := none } }

/-- Quality-score example of the spec: reasoning length 25, confidence 0.9,
one relevant rule, one opportunity. -/
def exDecisionHigh : Decision :=
  { strategy_analysis :=
      { current_goal := "g", goal_progress := GoalProgress.inProgress,
        situation_assessment := "s", relevant_guidelines := ["rule1"],
        opportunities := ["opp1"], risk_factors := [] },
    flow_decision :=
      { next_action := NextAction.buildValue,
        reasoning := "abcdefghijklmnopqrstuvwxy",
        confidence := 9/10, urgency := Urgency.low, backup_plan := "b" },
    action_execution :=
      { message := "m", message_intent := "i", expected_user_response := "r",
        context_updates := [], next_goal := "n" },
    meta :=
      { session_stage := SessionStage.opening, user_sentiment := Sentiment.neutral,
        should_escalate := false, escalation_reason := none } }

/-- Quality-score example of the spec: confidence 0.5, no rules, no
risks/opportunities, 5-character reasoning. -/
def exDecisionLow : Decision :=
  { strategy_analysis :=
      { current_goal := "g", goal_progress := GoalProgress.notStarted,
        situation_assessment := "s", relevant_guidelines := [],
        opportunities := [], risk_factors := [] },
    flow_decision :=
      { next_action := NextAction.askDiscoveryQuestion, reasoning := "hello",
        confidence := 1/2, urgency := Urgency.low, backup_plan := "b" },
    action_execution :=
      { message := "m", message_intent := "i", expected_user_response := "r",
        context_updates := [], next_goal := "n" },
    meta :=
      { session_stage := SessionStage.opening, user_sentiment := Sentiment.unknown,
        should_escalate := false, escalation_reason := none } }

/-- The state after a `registerStrategy` call: the updated state on success,
the unchanged state on a thrown `ValidationError`. -/
def afterRegister (st : SarufiState) (s : Strategy) : SarufiState :=
  match registerStrategy st s with
  | .ok st' => st'
  | .error _ => st

/-- Example non-active (completed) session context. -/
def exCtxDone : SessionContext :=
  { exCtx with session_id := "sess2", status := Status.completed }

/-- Example state holding only a completed session. -/
def exStateDone : SarufiState :=
  { exStateSess with sessions := [("sess2", exCtxDone)] }

/-! ### Association-list lemmas -/

theorem getK_eq_none_iff {α : Type} {m : List (String × α)} {k : String} :
    getK m k = none ↔ ∀ p ∈ m, p.1 ≠ k := by
  induction m with
  | nil => simp [getK]
  | cons p rest ih =>
    by_cases h : p.1 = k <;> simp [getK, h, ih]

theorem getK_append_of_none {α : Type} {l₁ : List (String × α)} (l₂ : List (String × α))
    {k : String} (h : getK l₁ k = none) : getK (l₁ ++ l₂) k = getK l₂ k := by
  induction l₁ with
  | nil => simp
  | cons p rest ih =>
    by_cases hp : p.1 = k
    · simp [getK, hp] at h
    · simp only [getK, hp, if_neg] at h ⊢
      simp [ih h]

theorem getK_append_of_some {α : Type} {l₁ : List (String × α)} (l₂ : List (String × α))
    {k : String} {v : α} (h : getK l₁ k = some v) : getK (l₁ ++ l₂) k = some v := by
  induction l₁ with
  | nil => simp [getK] at h
  | cons p rest ih =>
    by_cases hp : p.1 = k
    · simp only [getK, hp, if_pos] at h ⊢
      exact h
    · simp only [getK, hp, if_neg] at h ⊢
      simp [ih h]

theorem getK_map_snd {α β : Type} (m : List (String × α)) (f : α → β) (k : String) :
    getK (m.map (fun p => (p.1, f p.2))) k = (getK m k).map f := by
  induction m with
  | nil => simp [getK]
  | cons p rest ih =>
    by_cases h : p.1 = k <;> simp [getK, h, ih]

theorem getK_mapUpdate_self {α : Type} (m : List (String × α)) (k : String) (f : α → α) :
    getK (mapUpdate m k f) k = (getK m k).map f := by
  induction m with
  | nil => simp [getK, mapUpdate]
  | cons p rest ih =>
    simp only [mapUpdate, List.map_cons] at ih ⊢
    by_cases h : p.1 = k
    · simp [getK, h, ih]
    · simp [getK, h, ih]

theorem getK_mapUpdate_ne {α : Type} (m : List (String × α)) {k k' : String}
    (f : α → α) (h : k' ≠ k) : getK (mapUpdate m k f) k' = getK m k' := by
  induction m with
  | nil => simp [getK, mapUpdate]
  | cons p rest ih =>
    simp only [mapUpdate, List.map_cons] at ih ⊢
    by_cases hp : p.1 = k
    · have hne : ¬ p.1 = k' := by rw [hp]; exact fun he => h he.symm
      rw [if_pos hp]
      simp only [getK]
      rw [if_neg hne, if_neg hne, ih]
    · rw [if_neg hp]
      by_cases hp' : p.1 = k'
      · simp only [getK]
        rw [if_pos hp', if_pos hp']
      · simp only [getK]
        rw [if_neg hp', if_neg hp', ih]

theorem getK_none_of_any_false {α : Type} {m : List (String × α)} {k : String}
    (h : (m.any fun p => decide (p.1 = k)) = false) : getK m k = none := by
  rw [getK_eq_none_iff]
  intro p hp
  rw [List.any_eq_false] at h
  have := h p hp
  simpa using this

theorem mapSet_of_getK_none {α : Type} {m : List (String × α)} {k : String} (v : α)
    (h : getK m k = none) : mapSet m k v = m ++ [(k, v)] := by
  have hall : ∀ p ∈ m, p.1 ≠ k := getK_eq_none_iff.mp h
  unfold mapSet
  rw [if_neg]
  intro hany
  rw [List.any_eq_true] at hany
  obtain ⟨p, hp, he⟩ := hany
  exact hall p hp (of_decide_eq_true he)

theorem getK_mapSet_self {α : Type} (m : List (String × α)) (k : String) (v : α) :
    getK (mapSet m k v) k = some v := by
  unfold mapSet
  by_cases h : (m.any fun p => decide (p.1 = k)) = true
  · rw [if_pos h]
    induction m with
    | nil => simp at h
    | cons p rest ih =>
      by_cases hp : p.1 = k
      · simp [getK, hp]
      · simp only [List.any_cons, hp, decide_eq_true_eq, Bool.false_or, decide_False] at h
        simp [getK, hp, ih h]
  · rw [if_neg h]
    have hf : (m.any fun p => decide (p.1 = k)) = false := by
      cases hb : (m.any fun p => decide (p.1 = k)) with
      | false => rfl
      | true => exact absurd hb h
    rw [getK_append_of_none _ (getK_none_of_any_false hf)]
    simp [getK]

theorem getK_filter_ne_none {α : Type} (m : List (String × α)) (k : String) :
    getK (m.filter fun p => decide (p.1 ≠ k)) k = none := by
  induction m with
  | nil => simp [getK]
  | cons p rest ih =>
    rw [List.filter_cons]
    by_cases h : p.1 = k
    · rw [if_neg (by simp [h])]
      exact ih
    · rw [if_pos (by simp [h])]
      simp only [getK]
      rw [if_neg h]
      exact ih

theorem getK_exists_of_mem {α : Type} {m : List (String × α)} {p : String × α}
    (hp : p ∈ m) : ∃ v, getK m p.1 = some v := by
  induction m with
  | nil => cases hp
  | cons q rest ih =>
    by_cases h : q.1 = p.1
    · exact ⟨q.2, by simp [getK, h]⟩
    · rcases List.mem_cons.mp hp with he | hrest
      · exact absurd (he ▸ rfl) h
      · obtain ⟨v, hv⟩ := ih hrest
        exact ⟨v, by simp [getK, h, hv]⟩

theorem getK_none_mapUpdate {α : Type} {m : List (String × α)} {k' : String}
    (k : String) (f : α → α) (h : getK m k' = none) :
    getK (mapUpdate m k f) k' = none := by
  rw [getK_eq_none_iff] at h ⊢
  intro p hp
  unfold mapUpdate at hp
  rw [List.mem_map] at hp
  obtain ⟨q, hq, rfl⟩ := hp
  by_cases hqk : q.1 = k
  · simpa [hqk] using h q hq
  · simpa [hqk] using h q hq

/-! ### Counting lemmas for the per-user active-session invariant -/

theorem countP_mapUpdate_le {α : Type} (m : List (String × α)) (k : String) (f : α → α)
    (q : String × α → Bool) (hq : ∀ p : String × α, q (p.1, f p.2) = true → q p = true) :
    (mapUpdate m k f).countP q ≤ m.countP q := by
  unfold mapUpdate
  rw [List.countP_map]
  apply List.countP_mono_left
  intro p _ hp
  by_cases h : p.1 = k
  · simp only [Function.comp, if_pos h] at hp
    exact hq p hp
  · simpa [Function.comp, if_neg h] using hp

theorem countP_mapUpdate_eq_of_false {α : Type} (m : List (String × α)) (k : String)
    (f : α → α) (q : String × α → Bool)
    (hfalse : ∀ p : String × α, p.1 = k → q (p.1, f p.2) = false) :
    (mapUpdate m k f).countP q = m.countP (fun p => decide (p.1 ≠ k) && q p) := by
  unfold mapUpdate
  rw [List.countP_map]
  apply List.countP_congr
  intro p _
  by_cases h : p.1 = k
  · have hf2 := hfalse p h
    rw [h] at hf2
    simp [Function.comp, h, hf2]
  · simp [Function.comp, h]

theorem countP_key_split {α : Type} (m : List (String × α)) (k : String)
    (q : String × α → Bool) :
    m.countP q = m.countP (fun p => decide (p.1 = k) && q p)
      + m.countP (fun p => decide (p.1 ≠ k) && q p) := by
  induction m with
  | nil => simp
  | cons p rest ih =>
    rw [List.countP_cons, List.countP_cons, List.countP_cons, ih]
    by_cases h : p.1 = k <;> by_cases hq : q p = true <;> simp [h, hq] <;> omega

theorem countP_active_mapUpdate_le (m : List (String × SessionContext)) (k : String)
    (f : SessionContext → SessionContext) (uid : String)
    (hf : ∀ c, (f c).user_id = c.user_id ∧
      ((f c).status = Status.active → c.status = Status.active)) :
    (mapUpdate m k f).countP (isActiveFor uid) ≤ m.countP (isActiveFor uid) := by
  apply countP_mapUpdate_le
  intro p hp
  simp only [isActiveFor, decide_eq_true_eq] at hp ⊢
  exact ⟨by rw [← (hf p.2).1]; exact hp.1, (hf p.2).2 hp.2⟩

theorem activeCount_endSession_le (st : SarufiState) (sid : String) (now : ℤ)
    (uid : String) :
    activeCountOf (endSession st sid now).1 uid ≤ activeCountOf st uid := by
  unfold activeCountOf endSession
  cases hg : getK st.sessions sid with
  | none => simp
  | some ctx =>
    simp only []
    apply countP_active_mapUpdate_le
    intro c
    refine ⟨rfl, fun h => ?_⟩
    exact absurd h (by simp)

theorem activeCount_forceEnd_le (st : SarufiState) (userId : String) (now : ℤ)
    (uid : String) :
    activeCountOf (forceEndExisting st userId now) uid ≤ activeCountOf st uid := by
  unfold forceEndExisting
  cases hfind : findSessionByUser st userId with
  | none => exact le_refl _
  | some p => exact activeCount_endSession_le st p.1 now uid

theorem activeCount_forceEnd_zero (st : SarufiState) (userId : String) (now : ℤ)
    (hinv : activeCountOf st userId ≤ 1) :
    activeCountOf (forceEndExisting st userId now) userId = 0 := by
  unfold forceEndExisting
  cases hfind : findSessionByUser st userId with
  | none =>
    unfold findSessionByUser at hfind
    rw [List.find?_eq_none] at hfind
    unfold activeCountOf
    rw [List.countP_eq_zero]
    intro p hp
    exact hfind p hp
  | some p =>
    have hpred : isActiveFor userId p = true := List.find?_some hfind
    have hmem : p ∈ st.sessions := List.mem_of_find?_eq_some hfind
    obtain ⟨v, hv⟩ := getK_exists_of_mem hmem
    simp only [endSession, hv, activeCountOf]
    rw [countP_mapUpdate_eq_of_false _ _ _ _
      (fun q _ => by simp [isActiveFor])]
    have hsplit := countP_key_split st.sessions p.1 (isActiveFor userId)
    have hpos : 0 < st.sessions.countP (fun q => decide (q.1 = p.1) && isActiveFor userId q) := by
      rw [List.countP_pos_iff]
      exact ⟨p, hmem, by simp [hpred]⟩
    unfold activeCountOf at hinv
    omega

theorem activeCount_forceEnd_keys (st : SarufiState) (userId : String) (now : ℤ)
    {k : String} (h : getK st.sessions k = none) :
    getK (forceEndExisting st userId now).sessions k = none := by
  unfold forceEndExisting
  cases hfind : findSessionByUser st userId with
  | none => exact h
  | some p =>
    cases hg : getK st.sessions p.1 with
    | none =>
      simp only [endSession, hg]
      exact h
    | some ctx =>
      simp only [endSession, hg]
      exact getK_none_mapUpdate _ _ h

theorem activeCount_updateSessionContext_le (st : SarufiState) (sid : String)
    (updates : Store) (now : ℤ) (uid : String) :
    activeCountOf (updateSessionContext st sid updates now) uid ≤ activeCountOf st uid := by
  unfold activeCountOf updateSessionContext
  cases hg : getK st.sessions sid with
  | none => simp
  | some ctx =>
    simp only []
    apply countP_active_mapUpdate_le
    intro c
    exact ⟨rfl, fun h => h⟩

theorem countP_updateSessionContext_le (st : SarufiState) (sid : String)
    (updates : Store) (now : ℤ) (uid : String) :
    List.countP (isActiveFor uid) (updateSessionContext st sid updates now).sessions
      ≤ List.countP (isActiveFor uid) st.sessions :=
  activeCount_updateSessionContext_le st sid updates now uid

/-! ### Claim C5 -/

/-- C5: at most one stored session per user is `active` at every observation
point: the invariant holds for the initial state and is preserved by
`startSession` (which force-ends the user's existing active session before
inserting the new `active` one), by `sendMessage` and by `endSession`; the
`startSession` case assumes the generated session id is fresh. -/
theorem sarufi_c5_at_most_one_active :
    AtMostOneActive initialState ∧
    (∀ (st : SarufiState) (userId strategyName : String) (initialContext : Store)
       (oracle : OracleOutcome) (sessionId msgId : String) (now : ℤ) (nowIso : String),
       AtMostOneActive st → getK st.sessions sessionId = none →
       AtMostOneActive (afterStart st userId strategyName initialContext oracle
         sessionId msgId now nowIso)) ∧
    (∀ (st : SarufiState) (sessionId message : String) (oracle : OracleOutcome)
       (userMsgId asstMsgId : String) (now : ℤ) (nowIso : String),
       AtMostOneActive st →
       AtMostOneActive (sendMessage st sessionId message oracle userMsgId asstMsgId now nowIso).1) ∧
    (∀ (st : SarufiState) (sessionId : String) (now : ℤ),
       AtMostOneActive st → AtMostOneActive (endSession st sessionId now).1) := by
  refine ⟨?_, ?_, ?_, ?_⟩
  · intro uid
    simp [activeCountOf, initialState]
  · intro st userId strategyName initialContext oracle sessionId msgId now nowIso hinv hfresh uid
    unfold afterStart startSession
    cases hstrat : getK st.strategies strategyName with
    | none => simp only [hstrat]; exact hinv uid
    | some strat =>
      cases hagent : getK st.agents strategyName with
      | none => simp only [hstrat, hagent]; exact hinv uid
      | some ag =>
        simp only [hstrat, hagent]
        refine le_trans (activeCount_updateSessionContext_le _ _ _ _ uid) ?_
        simp only [activeCountOf]
        refine le_trans (countP_active_mapUpdate_le _ _ _ uid ?_) ?_
        · intro c
          exact ⟨rfl, fun hh => hh⟩
        have hfresh1 : getK (forceEndExisting st userId now).sessions sessionId = none :=
          activeCount_forceEnd_keys st userId now hfresh
        rw [mapSet_of_getK_none _ hfresh1, List.countP_append]
        by_cases huid : userId = uid
        · subst huid
          have h0 : List.countP (isActiveFor userId)
              (forceEndExisting st userId now).sessions = 0 :=
            activeCount_forceEnd_zero st userId now (hinv userId)
          rw [h0]
          simp only [Nat.zero_add]
          exact le_trans (List.countP_le_length _) (by simp)
        · rw [List.countP_singleton, if_neg]
          · have hle : List.countP (isActiveFor uid)
                (forceEndExisting st userId now).sessions ≤ 1 :=
              le_trans (activeCount_forceEnd_le st userId now uid) (hinv uid)
            omega
          · simp only [isActiveFor, decide_eq_true_eq]
            intro hcontra
            exact huid hcontra.1
  · intro st sessionId message oracle userMsgId asstMsgId now nowIso hinv uid
    unfold sendMessage
    cases hg : getK st.sessions sessionId with
    | none => simp only [hg]; exact hinv uid
    | some ctx =>
      simp only [hg]
      by_cases hact : ctx.status ≠ Status.active
      · rw [if_pos hact]
        exact hinv uid
      · rw [if_neg hact]
        cases ha : getK st.agents ctx.strategy_name with
        | none => simp only [ha]; exact hinv uid
        | some strat =>
          simp only [ha]
          refine le_trans ?_ (hinv uid)
          simp only [activeCountOf]
          split
          · try dsimp only
            refine le_trans (countP_active_mapUpdate_le _ _ _ uid ?_) ?_
            · intro c
              exact ⟨rfl, fun hh => absurd hh (by simp)⟩
            refine le_trans (countP_updateSessionContext_le _ _ _ _ uid) ?_
            try dsimp only
            refine le_trans (countP_active_mapUpdate_le _ _ _ uid ?_) ?_
            · intro c
              exact ⟨rfl, fun hh => hh⟩
            try dsimp only
            exact countP_active_mapUpdate_le _ _ _ uid (fun c => ⟨rfl, fun hh => hh⟩)
          · try dsimp only
            refine le_trans (countP_updateSessionContext_le _ _ _ _ uid) ?_
            try dsimp only
            refine le_trans (countP_active_mapUpdate_le _ _ _ uid ?_) ?_
            · intro c
              exact ⟨rfl, fun hh => hh⟩
            try dsimp only
            exact countP_active_mapUpdate_le _ _ _ uid (fun c => ⟨rfl, fun hh => hh⟩)
  · intro st sessionId now hinv uid
    exact le_trans (activeCount_endSession_le st sessionId now uid) (hinv uid)

/-- Witness for C5: the invariant after a concrete `startSession` call on a
state with a registered strategy and no sessions. -/
theorem sarufi_c5_witness :
    AtMostOneActive (afterStart exStateEmpty "u1" "sales_bot" []
      (OracleOutcome.failure "boom") "sess9" "m1" 0 "T") :=
  sarufi_c5_at_most_one_active.2.1 exStateEmpty "u1" "sales_bot" []
    (OracleOutcome.failure "boom") "sess9" "m1" 0 "T"
    (fun uid => by simp [activeCountOf, exStateEmpty])
    rfl

/-! ### Claim C2 -/

/-- C2 counterexample: ended sessions stay in the session map, so ending the
same session twice returns `true` both times (the claim says the second
call returns `false`), and the second call mutates the counters again
(completed count reaches 2, active count reaches −1 — not a no-op). -/
theorem sarufi_c2_counterexample :
    (endSession (endSession exStateSess "sess1" 5).1 "sess1" 9).2 = true ∧
    (endSession (endSession exStateSess "sess1" 5).1 "sess1" 9).1.sessionStats.completedSessions = 2 ∧
    (endSession (endSession exStateSess "sess1" 5).1 "sess1" 9).1.sessionStats.activeSessions = -1 := by
  exact ⟨rfl, rfl, rfl⟩

/-- C2 (amended): `endSession` returns `true` whenever the session id is
present in the store — ended sessions are never removed, so a second
`endSession` with the same id returns `true` again and decrements the
active count and increments the completed count a second time; it returns
`false`, mutating nothing, only for a session id absent from the store. -/
theorem sarufi_c2_end_twice (st : SarufiState) (sid : String) (t1 t2 : ℤ)
    (ctx : SessionContext) (hs : getK st.sessions sid = some ctx) :
    (endSession st sid t1).2 = true ∧
    (endSession (endSession st sid t1).1 sid t2).2 = true ∧
    (endSession (endSession st sid t1).1 sid t2).1.sessionStats.completedSessions
      = st.sessionStats.completedSessions + 2 ∧
    (endSession (endSession st sid t1).1 sid t2).1.sessionStats.activeSessions
      = st.sessionStats.activeSessions - 2 ∧
    (∀ sid', getK st.sessions sid' = none → endSession st sid' t1 = (st, false)) := by
  have h2 : getK (mapUpdate st.sessions sid
      (fun c => { c with status := Status.completed, updated_at := t1 })) sid
      = some { ctx with status := Status.completed, updated_at := t1 } := by
    rw [getK_mapUpdate_self, hs]
    rfl
  refine ⟨?_, ?_, ?_, ?_, ?_⟩
  · simp only [endSession, hs]
  · simp only [endSession, hs, h2]
  · simp only [endSession, hs, h2]
    omega
  · simp only [endSession, hs, h2]
    omega
  · intro sid' h'
    simp only [endSession, h']

/-- Witness for C2 (amended) at a concrete state. -/
theorem sarufi_c2_witness :
    (endSession exStateSess "sess1" 5).2 = true ∧
    (endSession (endSession exStateSess "sess1" 5).1 "sess1" 9).2 = true ∧
    (endSession (endSession exStateSess "sess1" 5).1 "sess1" 9).1.sessionStats.completedSessions
      = exStateSess.sessionStats.completedSessions + 2 ∧
    (endSession (endSession exStateSess "sess1" 5).1 "sess1" 9).1.sessionStats.activeSessions
      = exStateSess.sessionStats.activeSessions - 2 ∧
    endSession exStateSess "ghost" 5 = (exStateSess, false) := by
  obtain ⟨a, b, c, d, e⟩ := sarufi_c2_end_twice exStateSess "sess1" 5 9 exCtx rfl
  exact ⟨a, b, c, d, e "ghost" rfl⟩

/-! ### Claim C9 -/

/-- C9: for every valid strategy, `register` followed by `get` with the same
name returns the registered strategy, and `unregister` followed by `get`
returns none (for any state and name). -/
theorem sarufi_c9_register_get :
    (∀ (st : SarufiState) (s : Strategy),
      s.name ≠ "" → s.primary_goal ≠ "" → s.domain ≠ "" →
      getStrategy (afterRegister st s) s.name = some s) ∧
    (∀ (st : SarufiState) (name : String),
      getStrategy (unregisterStrategy st name).1 name = none) := by
  constructor
  · intro st s h1 h2 h3
    unfold afterRegister registerStrategy
    rw [if_neg h1, if_neg h2, if_neg h3]
    exact getK_mapSet_self _ _ _
  · intro st name
    exact getK_filter_ne_none _ _

/-- Witness for C9 at a concrete strategy and state. -/
theorem sarufi_c9_witness :
    getStrategy (afterRegister initialState exStrategy) "sales_bot" = some exStrategy ∧
    getStrategy (unregisterStrategy exStateSess "sales_bot").1 "sales_bot" = none :=
  ⟨sarufi_c9_register_get.1 initialState exStrategy (by decide) (by decide) (by decide),
   sarufi_c9_register_get.2 exStateSess "sales_bot"⟩

/-! ### Claim C6 -/

/-- C6: `sendMessage` on an unknown session id fails with `SessionNotFound`,
and on a session whose status is not `active` fails with
`SessionNotActive`; in both cases the returned state is exactly the input
state — no counter and no session is mutated. -/
theorem sarufi_c6_guard_no_mutation :
    (∀ (st : SarufiState) (sid message : String) (oracle : OracleOutcome)
       (umid amid : String) (now : ℤ) (iso : String),
      getK st.sessions sid = none →
      sendMessage st sid message oracle umid amid now iso
        = (st, Except.error (SarufiError.sessionNotFound sid))) ∧
    (∀ (st : SarufiState) (sid message : String) (oracle : OracleOutcome)
       (umid amid : String) (now : ℤ) (iso : String) (ctx : SessionContext),
      getK st.sessions sid = some ctx → ctx.status ≠ Status.active →
      sendMessage st sid message oracle umid amid now iso
        = (st, Except.error (SarufiError.sessionNotActive sid))) := by
  constructor
  · intro st sid message oracle umid amid now iso h
    simp only [sendMessage, h]
  · intro st sid message oracle umid amid now iso ctx h hact
    simp only [sendMessage, h]
    rw [if_pos hact]

/-- Witness for C6 at concrete states: an unknown id and a completed
session. -/
theorem sarufi_c6_witness :
    sendMessage exStateSess "nope" "hi" (OracleOutcome.failure "e") "m1" "m2" 0 "T"
      = (exStateSess, Except.error (SarufiError.sessionNotFound "nope")) ∧
    sendMessage exStateDone "sess2" "hi" (OracleOutcome.failure "e") "m1" "m2" 0 "T"
      = (exStateDone, Except.error (SarufiError.sessionNotActive "sess2")) :=
  ⟨sarufi_c6_guard_no_mutation.1 exStateSess "nope" "hi" _ "m1" "m2" 0 "T" rfl,
   sarufi_c6_guard_no_mutation.2 exStateDone "sess2" "hi" _ "m1" "m2" 0 "T" exCtxDone rfl
     (by decide)⟩

/-! ### Claim C4 -/

/-- C4: the quality score is the weighted sum +0.3 (rule cited) +0.3
(confidence > 0.7) +0.2 (opportunity or risk) +0.2 (reasoning longer than
20 characters), with tier `high` iff score ≥ 0.8, `medium` iff
0.5 ≤ score < 0.8, else `low`; the spec's two sample decisions evaluate to
1.0 → `high` and 0 → `low`. -/
theorem sarufi_c4_quality_score :
    (∀ d : Decision, evaluateDecisionQuality d = specTier (specQualityScore d)) ∧
    specQualityScore exDecisionHigh = 1 ∧
    evaluateDecisionQuality exDecisionHigh = Quality.high ∧
    specQualityScore exDecisionLow = 0 ∧
    evaluateDecisionQuality exDecisionLow = Quality.low := by
  refine ⟨?_, ?_, ?_, ?_, ?_⟩
  · intro d
    unfold evaluateDecisionQuality specTier specQualityScore
    split_ifs <;> norm_num at *
  · have h25 : ("abcdefghijklmnopqrstuvwxy" : String).length = 25 := by decide
    norm_num [specQualityScore, exDecisionHigh, h25]
  · have h25 : ("abcdefghijklmnopqrstuvwxy" : String).length = 25 := by decide
    norm_num [evaluateDecisionQuality, exDecisionHigh, h25]
  · have h5 : ("hello" : String).length = 5 := by decide
    norm_num [specQualityScore, exDecisionLow, h5]
  · have h5 : ("hello" : String).length = 5 := by decide
    norm_num [evaluateDecisionQuality, exDecisionLow, h5]

/-! ### Claim C7 -/

/-- C7: the interpreter's reasoning is exactly the five labeled fragments —
situation assessment, flow reasoning, action intent, rounded confidence
percentage, session stage — in that order, joined with the literal
separator " | ". -/
theorem sarufi_c7_reasoning_contract :
    ∀ (d : Decision) (prompt : String) (c : SessionContext) (iso : String),
    (interpretDecision d prompt c iso).reasoning =
      "Analysis: " ++ d.strategy_analysis.situation_assessment ++ " | " ++
      "Decision: " ++ d.flow_decision.reasoning ++ " | " ++
      "Action: " ++ d.action_execution.message_intent ++ " | " ++
      "Confidence: " ++ toString (jsRound (d.flow_decision.confidence * 100)) ++ "%" ++ " | " ++
      "Stage: " ++ d.meta.session_stage.toStr := by
  intro d prompt c iso
  simp only [interpretDecision, joinSep, String.append_assoc]

/-! ### Claim C3 -/

/-- C3: in the interpreter's merged `context_updates` the fixed derived keys
(`current_goal`, `previous_goal`, `session_stage`, `user_sentiment`, …) are
applied after the decision's own `action_execution.context_updates`, so
their derived values hold unconditionally — on any key collision the fixed
value wins — while every key outside the fixed set passes through from the
decision's own updates unchanged. -/
theorem sarufi_c3_fixed_keys_override :
    ∀ (d : Decision) (prompt : String) (c : SessionContext) (iso : String),
    getK (interpretDecision d prompt c iso).context_updates "current_goal"
      = some (StoredValue.js (JsValue.str d.action_execution.next_goal)) ∧
    getK (interpretDecision d prompt c iso).context_updates "previous_goal"
      = some (StoredValue.js (JsValue.str c.current_goal)) ∧
    getK (interpretDecision d prompt c iso).context_updates "session_stage"
      = some (StoredValue.js (JsValue.str d.meta.session_stage.toStr)) ∧
    getK (interpretDecision d prompt c iso).context_updates "user_sentiment"
      = some (StoredValue.js (JsValue.str d.meta.user_sentiment.toStr)) ∧
    (∀ k, k ∉ fixedDerivedKeys →
      getK (interpretDecision d prompt c iso).context_updates k
        = (getK d.action_execution.context_updates k).map StoredValue.js) := by
  intro d prompt c iso
  refine ⟨?_, ?_, ?_, ?_, ?_⟩
  · simp [interpretDecision, objLit, getK]
  · simp [interpretDecision, objLit, getK]
  · simp [interpretDecision, objLit, getK]
  · simp [interpretDecision, objLit, getK]
  · intro k hk
    simp only [fixedDerivedKeys, List.mem_cons, List.not_mem_nil, or_false, not_or] at hk
    obtain ⟨h1, h2, h3, h4, h5, h6, h7, h8, h9, h10, h11, h12, h13, h14, h15, h16⟩ := hk
    simp [interpretDecision, objLit, getK, getK_map_snd,
      Ne.symm h1, Ne.symm h2, Ne.symm h3, Ne.symm h4, Ne.symm h5, Ne.symm h6,
      Ne.symm h7, Ne.symm h8, Ne.symm h9, Ne.symm h10, Ne.symm h11, Ne.symm h12,
      Ne.symm h13, Ne.symm h14, Ne.symm h15, Ne.symm h16]

/-- Witness for C3 at a concrete decision whose own updates try to shadow
`current_goal` (the fixed derived value wins) and carry a custom key
`shoe_size` (which passes through). -/
theorem sarufi_c3_witness :
    getK (interpretDecision exDecision "hi" exCtx "T").context_updates "current_goal"
      = some (StoredValue.js (JsValue.str "close_deal")) ∧
    getK (interpretDecision exDecision "hi" exCtx "T").context_updates "shoe_size"
      = some (StoredValue.js (JsValue.str "42")) := by
  obtain ⟨hcg, -, -, -, hpass⟩ := sarufi_c3_fixed_keys_override exDecision "hi" exCtx "T"
  refine ⟨hcg, ?_⟩
  rw [hpass "shoe_size" (by decide)]
  rfl

/-! ### Claim C8 -/

/-- C8: for a strategy name with no stored sessions, `getStrategyPerformance`
returns completion rate 0, escalation rate 0, average messages 0 and
performance score 0 — the 0/0 `NaN` of the unguarded average-messages
division is flushed to 0 by the `|| 0` guard, so no `NaN` reaches the
caller. -/
theorem sarufi_c8_zero_sessions (st : SarufiState) (name : String)
    (h : ∀ p ∈ st.sessions, p.2.strategy_name ≠ name) :
    getStrategyPerformance st name =
      { strategy_name := name, total_sessions := 0, completion_rate := 0,
        escalation_rate := 0, average_messages := JNum.val 0, performance_score := 0 } := by
  have hfil : (st.sessions.map Prod.snd).filter (fun c => c.strategy_name == name) = [] := by
    rw [List.filter_eq_nil_iff]
    intro c hc
    rw [List.mem_map] at hc
    obtain ⟨p, hp, rfl⟩ := hc
    simpa using h p hp
  simp only [getStrategyPerformance, hfil]
  norm_num [jsDiv, jsOrZero, calculatePerformanceScore]

/-- Witness for C8: a strategy name bound to no session of a concrete
state. -/
theorem sarufi_c8_witness :
    getStrategyPerformance exStateSess "unused_bot" =
      { strategy_name := "unused_bot", total_sessions := 0, completion_rate := 0,
        escalation_rate := 0, average_messages := JNum.val 0, performance_score := 0 } :=
  sarufi_c8_zero_sessions exStateSess "unused_bot" (by decide)

/-! ### Claim C1 -/

/-- C1 counterexample: on an oracle failure the Agent's internal catch
returns the fallback response with `should_escalate := true`, so
`sendMessage` escalates the session instead of leaving it `active`: the
output's `session_status` is `escalated`, the message is the agent's
fallback (not the orchestrator's "I'm sorry, I encountered an issue."
message of the unreachable catch block), the error counter stays 0 instead
of being incremented, and the fallback context delta IS applied to
`user_inputs`. -/
theorem sarufi_c1_counterexample :
    (sendMessage exStateSess "sess1" "hello" (OracleOutcome.failure "boom")
        "m1" "m2" 7 "T").2
      = Except.ok
          { message := fallbackMessage, session_id := "sess1",
            agent_reasoning := some "System error: boom",
            suggested_actions := some ["rephrase_or_retry"],
            session_status := Status.escalated } ∧
    fallbackMessage ≠ "I'm sorry, I encountered an issue. Could you please try again?" ∧
    (sendMessage exStateSess "sess1" "hello" (OracleOutcome.failure "boom")
        "m1" "m2" 7 "T").1.sessionStats.errorCount = 0 ∧
    ((getK (sendMessage exStateSess "sess1" "hello" (OracleOutcome.failure "boom")
        "m1" "m2" 7 "T").1.sessions "sess1").map (fun c => c.status))
      = some Status.escalated ∧
    ((getK (sendMessage exStateSess "sess1" "hello" (OracleOutcome.failure "boom")
        "m1" "m2" 7 "T").1.sessions "sess1").map
          (fun c => getK c.user_inputs "fallback_used"))
      = some (some (StoredValue.js (JsValue.bool true))) := by
  exact ⟨rfl, by decide, rfl, rfl, rfl⟩

/-- C1 (amended): for every `sendMessage` call on an active session whose
oracle turn fails with a nonempty error message, the Agent's catch returns
the fallback response whose `should_escalate` flag is `true`; consequently
the session's status becomes `escalated`, the fallback context delta
(`last_error`, `error_timestamp`, `fallback_used`) is applied to
`user_inputs`, the active-session counter is decremented, the error
counter is NOT incremented, and the returned Output carries
`session_status` `escalated`, the agent's fixed apologetic fallback
message, and a reasoning field "System error: <detail>" containing the
error detail. -/
theorem sarufi_c1_fallback_escalates (st : SarufiState)
    (sid message errMsg umid amid : String) (now : ℤ) (iso : String)
    (ctx : SessionContext) (strat : Strategy)
    (hs : getK st.sessions sid = some ctx)
    (hact : ctx.status = Status.active)
    (hagent : getK st.agents ctx.strategy_name = some strat)
    (hmsg : errMsg ≠ "") :
    (sendMessage st sid message (OracleOutcome.failure errMsg) umid amid now iso).2
      = Except.ok
          { message := fallbackMessage, session_id := sid,
            agent_reasoning := some ("System error: " ++ errMsg),
            suggested_actions := some ["rephrase_or_retry"],
            session_status := Status.escalated } ∧
    (sendMessage st sid message (OracleOutcome.failure errMsg) umid amid now
      iso).1.sessionStats.errorCount = st.sessionStats.errorCount ∧
    (sendMessage st sid message (OracleOutcome.failure errMsg) umid amid now
      iso).1.sessionStats.activeSessions = st.sessionStats.activeSessions - 1 ∧
    ((getK (sendMessage st sid message (OracleOutcome.failure errMsg) umid amid now
      iso).1.sessions sid).map (fun c => c.status)) = some Status.escalated ∧
    ((getK (sendMessage st sid message (OracleOutcome.failure errMsg) umid amid now
      iso).1.sessions sid).map (fun c => getK c.user_inputs "fallback_used"))
      = some (some (StoredValue.js (JsValue.bool true))) ∧
    ((getK (sendMessage st sid message (OracleOutcome.failure errMsg) umid amid now
      iso).1.sessions sid).map (fun c => getK c.user_inputs "last_error"))
      = some (some (StoredValue.js (JsValue.str errMsg))) := by
  have hne : ¬ ctx.status ≠ Status.active := by simp [hact]
  simp only [sendMessage, hs, if_neg hne, hagent, processPrompt,
    generateFallbackResponse, if_neg hmsg, updateSessionContext,
    getK_mapUpdate_self, Option.map_map, Option.map_some']
  simp [getK_mapUpdate_self, hs, objLit, jsAssign, getK, suggestedActionsOf,
    fallbackMessage]

/-- Witness for C1 (amended) at a concrete state and error. -/
theorem sarufi_c1_witness :
    (sendMessage exStateSess "sess1" "hello" (OracleOutcome.failure "boom")
        "m1" "m2" 7 "T").2
      = Except.ok
          { message := fallbackMessage, session_id := "sess1",
            agent_reasoning := some ("System error: " ++ "boom"),
            suggested_actions := some ["rephrase_or_retry"],
            session_status := Status.escalated } ∧
    (sendMessage exStateSess "sess1" "hello" (OracleOutcome.failure "boom") "m1" "m2" 7
      "T").1.sessionStats.errorCount = exStateSess.sessionStats.errorCount ∧
    (sendMessage exStateSess "sess1" "hello" (OracleOutcome.failure "boom") "m1" "m2" 7
      "T").1.sessionStats.activeSessions = exStateSess.sessionStats.activeSessions - 1 ∧
    ((getK (sendMessage exStateSess "sess1" "hello" (OracleOutcome.failure "boom") "m1" "m2" 7
      "T").1.sessions "sess1").map (fun c => c.status)) = some Status.escalated ∧
    ((getK (sendMessage exStateSess "sess1" "hello" (OracleOutcome.failure "boom") "m1" "m2" 7
      "T").1.sessions "sess1").map (fun c => getK c.user_inputs "fallback_used"))
      = some (some (StoredValue.js (JsValue.bool true))) ∧
    ((getK (sendMessage exStateSess "sess1" "hello" (OracleOutcome.failure "boom") "m1" "m2" 7
      "T").1.sessions "sess1").map (fun c => getK c.user_inputs "last_error"))
      = some (some (StoredValue.js (JsValue.str "boom"))) :=
  sarufi_c1_fallback_escalates exStateSess "sess1" "hello" "boom" "m1" "m2" 7 "T"
    exCtx exStrategy rfl rfl rfl (by decide)

/-! ### Claim C10 -/

/-- C10 counterexample: a successful real turn increments the session's
`messages_count` by 2 (user and assistant message) but increments the
process-wide total-messages counter only once — not once per message as
the claim's "increments both for the user and assistant messages"
asserts. -/
theorem sarufi_c10_counterexample :
    (sendMessage exStateSess "sess1" "hi" (OracleOutcome.success exDecision)
      "m1" "m2" 7 "T").1.sessionStats.totalMessages = 1 ∧
    ¬ (sendMessage exStateSess "sess1" "hi" (OracleOutcome.success exDecision)
      "m1" "m2" 7 "T").1.sessionStats.totalMessages = 2 ∧
    ((getK (sendMessage exStateSess "sess1" "hi" (OracleOutcome.success exDecision)
      "m1" "m2" 7 "T").1.sessions "sess1").map (fun c => c.messages_count)) = some 2 := by
  refine ⟨rfl, by decide, rfl⟩

/-- C10 (amended): the synthetic `[SESSION_STARTED]` turn of `startSession`
appends exactly one assistant message but leaves the session's
`messages_count` at 0 and the process-wide total-messages counter
unchanged; a successful real `sendMessage` turn appends the user and the
assistant message, incrementing `messages_count` by 2 and the process-wide
total by exactly 1 (at the user message only). -/
theorem sarufi_c10_synthetic_turn :
    (∀ (st : SarufiState) (userId strategyName : String) (ic : Store)
       (oracle : OracleOutcome) (sid mid : String) (now : ℤ) (iso : String)
       (strat ag : Strategy),
      getK st.strategies strategyName = some strat →
      getK st.agents strategyName = some ag →
      ((getK (afterStart st userId strategyName ic oracle sid mid now iso).sessions sid).map
        (fun c => c.messages_count)) = some 0 ∧
      ((getK (afterStart st userId strategyName ic oracle sid mid now iso).sessions sid).map
        (fun c => c.messages.map (fun m => m.role))) = some [Role.assistant] ∧
      (afterStart st userId strategyName ic oracle sid mid now
        iso).sessionStats.totalMessages = st.sessionStats.totalMessages) ∧
    (∀ (st : SarufiState) (sid message : String) (oracle : OracleOutcome)
       (umid amid : String) (now : ℤ) (iso : String)
       (ctx : SessionContext) (strat : Strategy),
      getK st.sessions sid = some ctx → ctx.status = Status.active →
      getK st.agents ctx.strategy_name = some strat →
      ((getK (sendMessage st sid message oracle umid amid now iso).1.sessions sid).map
        (fun c => c.messages_count)) = some (ctx.messages_count + 2) ∧
      ((getK (sendMessage st sid message oracle umid amid now iso).1.sessions sid).map
        (fun c => c.messages.length)) = some (ctx.messages.length + 2) ∧
      (sendMessage st sid message oracle umid amid now iso).1.sessionStats.totalMessages
        = st.sessionStats.totalMessages + 1) := by
  constructor
  · intro st userId strategyName ic oracle sid mid now iso strat ag hstrat hagent
    have htm : (forceEndExisting st userId now).sessionStats.totalMessages
        = st.sessionStats.totalMessages := by
      unfold forceEndExisting
      cases hfind : findSessionByUser st userId with
      | none => rfl
      | some p =>
        cases hg : getK st.sessions p.1 with
        | none => simp only [endSession, hg]
        | some c => simp only [endSession, hg]
    simp only [afterStart, startSession, hstrat, hagent, updateSessionContext,
      getK_mapUpdate_self, getK_mapSet_self, Option.map_some']
    exact ⟨trivial, by simp, htm⟩
  · intro st sid message oracle umid amid now iso ctx strat hs hact hagent
    have hne : ¬ ctx.status ≠ Status.active := by simp [hact]
    simp only [sendMessage, hs, if_neg hne, hagent, updateSessionContext,
      getK_mapUpdate_self, Option.map_some']
    constructor
    · split <;> simp [getK_mapUpdate_self, hs] <;> omega
    constructor
    · split <;> simp [getK_mapUpdate_self, hs]
    · split <;> rfl

/-- Witness for C10 (amended): a concrete `startSession` and a concrete
successful `sendMessage` turn. -/
theorem sarufi_c10_witness :
    ((getK (afterStart exStateEmpty "u1" "sales_bot" [] (OracleOutcome.failure "x")
      "sess9" "m1" 0 "T").sessions "sess9").map (fun c => c.messages_count)) = some 0 ∧
    ((getK (afterStart exStateEmpty "u1" "sales_bot" [] (OracleOutcome.failure "x")
      "sess9" "m1" 0 "T").sessions "sess9").map (fun c => c.messages.map (fun m => m.role)))
      = some [Role.assistant] ∧
    (afterStart exStateEmpty "u1" "sales_bot" [] (OracleOutcome.failure "x")
      "sess9" "m1" 0 "T").sessionStats.totalMessages
      = exStateEmpty.sessionStats.totalMessages ∧
    ((getK (sendMessage exStateSess "sess1" "hi" (OracleOutcome.success exDecision)
      "m1" "m2" 7 "T").1.sessions "sess1").map (fun c => c.messages_count))
      = some (exCtx.messages_count + 2) ∧
    ((getK (sendMessage exStateSess "sess1" "hi" (OracleOutcome.success exDecision)
      "m1" "m2" 7 "T").1.sessions "sess1").map (fun c => c.messages.length))
      = some (exCtx.messages.length + 2) ∧
    (sendMessage exStateSess "sess1" "hi" (OracleOutcome.success exDecision)
      "m1" "m2" 7 "T").1.sessionStats.totalMessages
      = exStateSess.sessionStats.totalMessages + 1 := by
  obtain ⟨a1, a2, a3⟩ := sarufi_c10_synthetic_turn.1 exStateEmpty "u1" "sales_bot" []
    (OracleOutcome.failure "x") "sess9" "m1" 0 "T" exStrategy exStrategy rfl rfl
  obtain ⟨b1, b2, b3⟩ := sarufi_c10_synthetic_turn.2 exStateSess "sess1" "hi"
    (OracleOutcome.success exDecision) "m1" "m2" 7 "T" exCtx exStrategy rfl rfl rfl
  exact ⟨a1, a2, a3, b1, b2, b3⟩

end Sarufi
